import Mathlib

/-!
Verification development for the `buckwild` repository (`src/net/ssd/netssd.c`,
`src/net/ssd/netssd.h`), a skeletal kernel-level network protocol module, and
for the user-space protocol engine its specification designs (Datagram Codec,
Session Table, Session State Machine, Dispatcher, Send Path).

The kernel module itself is scaffolding: registration in `netssd_init_module`,
deregistration in `netssd_cleanup_module`, and six stub protocol operations.
Those are embedded directly from the C source.  The protocol engine has no
implementation in the repository, so its components are modelled from the
specification text, as marked on each definition.
-/

namespace Netssd

/-! ## Datagram Codec -/

/-- Modelled from the spec: the wire header of one datagram — protocol version
tag (1 byte), payload length (2 bytes big-endian, 0–65535), sequence tag
(4 bytes big-endian).  The codec is the missing Datagram Codec component;
no codec exists under `src/`. -/
structure Header where
  version : Nat
  payload_length : Nat
  sequence_tag : Nat
deriving DecidableEq, Repr

/-- Modelled from the spec: encoding failure — the payload length exceeds the
16-bit `payload_length` field's range. -/
inductive EncodeError where
  | PayloadTooLarge
deriving DecidableEq, Repr

/-- Modelled from the spec: decoding failures — fewer than 7 header bytes,
declared payload length not matching the remaining bytes, unrecognized
version tag. -/
inductive DecodeError where
  | Truncated
  | LengthMismatch
  | UnsupportedVersion
deriving DecidableEq, Repr

/-- Big-endian serialization of a 16-bit value into two bytes. -/
def be16 (n : Nat) : List Nat := [n / 256 % 256, n % 256]

/-- Big-endian serialization of a 32-bit value into four bytes. -/
def be32 (n : Nat) : List Nat :=
  [n / 16777216 % 256, n / 65536 % 256, n / 256 % 256, n % 256]

/-- Modelled from the spec: `encode(header_fields, payload)` serializes the
version tag (1 byte), the payload length (2 bytes big-endian), the sequence
tag (4 bytes big-endian) and then the raw payload bytes; it fails with
`EncodeError` exactly when the payload length exceeds the 16-bit field's
range.  Pure and deterministic (a total Lean function). -/
def encode (h : Header) (p : List Nat) : Except EncodeError (List Nat) :=
  if 65535 < p.length then .error .PayloadTooLarge
  else .ok (h.version % 256 :: (be16 p.length ++ (be32 h.sequence_tag ++ p)))

/-- Modelled from the spec: `decode(bytes)` fails with `Truncated` when fewer
than 7 header bytes are present, with `UnsupportedVersion` when the version
tag is not the recognized constant 1, with `LengthMismatch` when the declared
payload length does not match the actual remaining bytes; otherwise it
returns the header fields and the payload.  Pure and deterministic. -/
def decode (b : List Nat) : Except DecodeError (Header × List Nat) :=
  match b with
  | v :: l1 :: l2 :: s1 :: s2 :: s3 :: s4 :: rest =>
    if v ≠ 1 then .error .UnsupportedVersion
    else
      let plen := l1 * 256 + l2
      if rest.length ≠ plen then .error .LengthMismatch
      else .ok ({ version := v, payload_length := plen,
                  sequence_tag := ((s1 * 256 + s2) * 256 + s3) * 256 + s4 }, rest)
  | _ => .error .Truncated


/-! ## Session Table, Session State Machine, Send Path, Dispatcher -/

/-- Modelled from the spec: an Endpoint is an opaque identifier supplied by
the host transport. -/
abbrev Endpoint := Nat

/-- Modelled from the spec: a SessionKey is the ordered pair
(local Endpoint, remote Endpoint), unique per session. -/
abbrev SessionKey := Endpoint × Endpoint

/-- Modelled from the spec: the per-session lifecycle states
UNBOUND → OPEN → CLOSING → CLOSED.  UNBOUND is transient: it collapses
immediately to OPEN on creation, so it never occurs in the table. -/
inductive SessionState where
  | UNBOUND
  | OPEN
  | CLOSING
  | CLOSED
deriving DecidableEq, Repr

/-- Modelled from the spec: a Session owns an inbound FIFO queue of received
payloads, a current lifecycle state, a last-activity timestamp, and an
overflow counter for payloads dropped by the ring-buffer policy. -/
structure Session where
  queue : List (List Nat)
  state : SessionState
  lastActivity : Nat
  overflow : Nat
deriving DecidableEq, Repr

/-- Modelled from the spec: errors of the Session Table and Send Path —
no matching session with creation disallowed, and an operation attempted on
a CLOSING/CLOSED session.  Encode failures propagate from the codec. -/
inductive EngineError where
  | NotFound
  | ClosedSession
  | EncodeFailed
deriving DecidableEq, Repr

/-- Modelled from the spec: the SessionTable maps SessionKeys to Sessions,
keys unique, insertion order irrelevant. -/
abbrev SessionTable := List (SessionKey × Session)

/-- Look a key up in the table. -/
def findSession : SessionTable → SessionKey → Option Session
  | [], _ => none
  | (k0, s) :: rest, k => if k0 = k then some s else findSession rest k

/-- Apply a function to the session stored under a key, if present. -/
def updateSession : SessionTable → SessionKey → (Session → Session) → SessionTable
  | [], _, _ => []
  | (k0, s) :: rest, k, f =>
    if k0 = k then (k0, f s) :: rest else (k0, s) :: updateSession rest k f

/-- Modelled from the spec: a freshly created session — empty inbound queue,
state collapsed from UNBOUND to OPEN on creation, last activity now,
overflow counter zero. -/
def newSession (now : Nat) : Session :=
  { queue := [], state := .OPEN, lastActivity := now, overflow := 0 }

/-- Modelled from the spec: `lookup_or_create(key, allow_create)` returns the
existing session if present; if absent and `allow_create` is true it creates
a new session in state UNBOUND→OPEN and inserts it; if absent and
`allow_create` is false it fails with `NotFound` (returning no table, so the
caller's table is unchanged). -/
def lookup_or_create (tbl : SessionTable) (k : SessionKey) (allow_create : Bool)
    (now : Nat) : Except EngineError (Session × SessionTable) :=
  match findSession tbl k with
  | some s => .ok (s, tbl)
  | none =>
    if allow_create then .ok (newSession now, (k, newSession now) :: tbl)
    else .error .NotFound

/-- Modelled from the spec: a session is idle longer than `idle_timeout` when
its last-activity timestamp is older than the timeout relative to `now`. -/
def isIdle (now idle_timeout : Nat) (s : Session) : Bool :=
  s.lastActivity + idle_timeout < now

/-- Modelled from the spec: `sweep(now, idle_timeout)` removes all sessions
whose last-activity timestamp is older than `idle_timeout` and returns the
count removed, paired here with the surviving table. -/
def sweep (tbl : SessionTable) (now idle_timeout : Nat) : Nat × SessionTable :=
  ((tbl.filter fun e => isIdle now idle_timeout e.2).length,
   tbl.filter fun e => ! isIdle now idle_timeout e.2)

/-- Modelled from the spec: the state after `close()` — OPEN (and CLOSING)
becomes CLOSING, collapsing synchronously to CLOSED when the inbound queue
is already empty; CLOSED is terminal.  The transient UNBOUND state never
occurs in the table; close treats it like OPEN (forcible close). -/
def closeState (s : Session) : SessionState :=
  match s.state with
  | .CLOSED => .CLOSED
  | _ => if s.queue.isEmpty then .CLOSED else .CLOSING

/-- Modelled from the spec: `close()` transitions the session under the key
to CLOSING, or synchronously to CLOSED when its inbound queue is already
empty; removal from the table is deferred (periodic sweep or
drain-completion check). -/
def close (tbl : SessionTable) (k : SessionKey) : SessionTable :=
  updateSession tbl k fun s => { s with state := closeState s }

/-- Modelled from the spec: the Send Path — resolves or creates the session
(`allow_create` always true for outbound), checks the state is OPEN (fails
with `ClosedSession` if CLOSING/CLOSED), encodes the datagram via the codec
(propagating encode failure), and yields the encoded bytes to hand to the
host transport together with the possibly extended table. -/
def send (tbl : SessionTable) (k : SessionKey) (payload : List Nat)
    (seq : Nat) (now : Nat) : Except EngineError (List Nat × SessionTable) :=
  match lookup_or_create tbl k true now with
  | .error e => .error e
  | .ok (s, tbl1) =>
    match s.state with
    | .OPEN =>
      match encode { version := 1, payload_length := payload.length,
                     sequence_tag := seq } payload with
      | .error _ => .error .EncodeFailed
      | .ok bytes => .ok (bytes, tbl1)
    | _ => .error .ClosedSession

/-- Modelled from the spec: appending one payload to a session's inbound
queue under the bounded ring-buffer policy — exceeding the configured
capacity drops the oldest entry and increments the overflow counter. -/
def enqueuePayload (capacity : Nat) (s : Session) (p : List Nat) : Session :=
  let q := s.queue ++ [p]
  if q.length ≤ capacity then { s with queue := q }
  else { s with queue := q.drop 1, overflow := s.overflow + 1 }

/-- Delivering a sequence of payloads to one session, oldest first, with no
intervening drain. -/
def deliverMany (capacity : Nat) (s : Session) (ps : List (List Nat)) : Session :=
  ps.foldl (enqueuePayload capacity) s

/-- Modelled from the spec: engine configuration — `accept_unsolicited`,
`inbound_queue_capacity`, `idle_timeout`. -/
structure Config where
  accept_unsolicited : Bool
  inbound_queue_capacity : Nat
  idle_timeout : Nat
deriving DecidableEq, Repr

/-- Modelled from the spec: an engine instance — configuration, the local
Endpoint, the owned SessionTable and the malformed-datagram counter. -/
structure Engine where
  cfg : Config
  local_ep : Endpoint
  table : SessionTable
  malformed : Nat
deriving DecidableEq, Repr

/-- Modelled from the spec: the Dispatcher's `on_datagram_received` — decodes
via the codec (on `DecodeError`, increments the malformed counter and drops
silently); on success derives the SessionKey from (local Endpoint, sender),
calls `lookup_or_create` with `allow_create = accept_unsolicited`; drops the
payload if the session is CLOSING or CLOSED; if OPEN, appends the payload to
the inbound queue (ring-buffer policy) and updates the last-activity
timestamp; reports `NotFound` to the error path when creation is
disallowed. -/
def on_datagram_received (e : Engine) (raw : List Nat) (sender : Endpoint)
    (now : Nat) : Engine × Option EngineError :=
  match decode raw with
  | .error _ => ({ e with malformed := e.malformed + 1 }, none)
  | .ok (_, p) =>
    match lookup_or_create e.table (e.local_ep, sender)
        e.cfg.accept_unsolicited now with
    | .error err => (e, some err)
    | .ok (s, tbl1) =>
      match s.state with
      | .OPEN =>
        ({ e with table := updateSession tbl1 (e.local_ep, sender) (fun s0 =>
             enqueuePayload e.cfg.inbound_queue_capacity
               { s0 with lastActivity := now } p) }, none)
      | _ => (e, none)

/-! ## Kernel module scaffolding, embedded from `src/net/ssd/netssd.c` -/

/-- Opaque model of the kernel's `struct sock`; the stubs never inspect or
modify it. -/
structure Sock where
  data : Nat
deriving DecidableEq, Repr

/-- Opaque model of the kernel's `struct msghdr`. -/
structure MsgHdr where
  data : Nat
deriving DecidableEq, Repr

/-- Opaque model of the kernel's `struct sk_buff`. -/
structure SkBuff where
  data : Nat
deriving DecidableEq, Repr

/-- Embedded from `netssd_close`: the body is empty, so the socket is
returned unchanged. -/
def netssd_close (sk : Sock) (timeout : Int) : Sock := sk

/-- Embedded from `netssd_sendmsg`: the body is `return 0;`; the socket and
message are untouched. -/
def netssd_sendmsg (sk : Sock) (msg : MsgHdr) (len : Nat) :
    Int × Sock × MsgHdr := (0, sk, msg)

/-- Embedded from `netssd_recvmsg`: the body is `return 0;`; the socket, the
message and the `addr_len` out-parameter are untouched. -/
def netssd_recvmsg (sk : Sock) (msg : MsgHdr) (len : Nat)
    (noblock flags : Int) (addr_len : Int) : Int × Sock × MsgHdr × Int :=
  (0, sk, msg, addr_len)

/-- Embedded from `netssd_hash`: the body is `return 0;`. -/
def netssd_hash (sk : Sock) : Int × Sock := (0, sk)

/-- Embedded from `netssd_rcv`: it emits one `printk` line (the kernel log is
modelled explicitly as the list of emitted lines) and returns 0, leaving the
socket buffer untouched. -/
def netssd_rcv (skb : SkBuff) (log : List String) :
    Int × SkBuff × List String := (0, skb, log ++ ["rcv is called\n"])

/-- Embedded from `netssd_err`: the body is `return 0;`. -/
def netssd_err (skb : SkBuff) (info : Nat) : Int × SkBuff := (0, skb)

/-- Value of the kernel constant `SOCK_RAW`. -/
def SOCK_RAW : Nat := 3

/-- The module's private protocol number `#define IPPROTO_NETSSDPROTO 14`. -/
def IPPROTO_NETSSDPROTO : Nat := 14

/-- Return codes the host kernel gives to the two fallible registration
calls made by `netssd_init_module`: `proto_register(&netssd_proto, 1)` and
`inet_add_protocol(&netssd_protocol, IPPROTO_NETSSDPROTO)`. -/
structure HostEnv where
  proto_register_rc : Int
  inet_add_protocol_rc : Int
deriving DecidableEq, Repr

/-- One observable kernel interaction of the module's init/cleanup path. -/
inductive KernelCall where
  | protoRegister
  | inetAddProtocol
  | cleanupModule
  | inetRegisterProtosw (ty : Nat) (protoNum : Nat)
  | inetDelProtocol
  | protoUnregister
deriving DecidableEq, Repr

/-- Embedded from `netssd_cleanup_module`: calls `inet_del_protocol` and then
`proto_unregister`, returning nothing; its observable behaviour is the
ordered trace of those two calls. -/
def netssd_cleanup_module : List KernelCall :=
  [.inetDelProtocol, .protoUnregister]

/-- Embedded from `netssd_init_module`: calls `proto_register`; on a nonzero
code calls `cleanup_module` and returns that code; otherwise calls
`inet_add_protocol`; on a nonzero code calls `cleanup_module` and returns
that code; otherwise zeroes `netssd_protosw`, sets its type to `SOCK_RAW`
and its protocol to `IPPROTO_NETSSDPROTO`, registers it via
`inet_register_protosw`, and returns 0.  The result is the returned value
paired with the ordered trace of kernel calls. -/
def netssd_init_module (env : HostEnv) : Int × List KernelCall :=
  if env.proto_register_rc ≠ 0 then
    (env.proto_register_rc, [.protoRegister, .cleanupModule])
  else if env.inet_add_protocol_rc ≠ 0 then
    (env.inet_add_protocol_rc,
     [.protoRegister, .inetAddProtocol, .cleanupModule])
  else
    (0, [.protoRegister, .inetAddProtocol,
         .inetRegisterProtosw SOCK_RAW IPPROTO_NETSSDPROTO])

/-! ## Theorems -/

/-- A 32-bit value is recovered from its four big-endian bytes. -/
theorem be32_reassemble (n : Nat) (h : n < 4294967296) :
    ((n / 16777216 % 256 * 256 + n / 65536 % 256) * 256 + n / 256 % 256) * 256
      + n % 256 = n := by
  omega

/-- C2: for every valid header (recognized version, payload length matching
the payload, 32-bit sequence tag) and payload of at most 65535 bytes,
`decode (encode h p)` succeeds and returns exactly `(h, p)`; both functions
are pure Lean functions, hence deterministic. -/
theorem codec_round_trip (h : Header) (p : List Nat)
    (hv : h.version = 1) (hl : h.payload_length = p.length)
    (hs : h.sequence_tag < 4294967296) (hp : p.length ≤ 65535) :
    ∃ bytes, encode h p = .ok bytes ∧ decode bytes = .ok (h, p) := by
  refine ⟨h.version % 256 :: (be16 p.length ++ (be32 h.sequence_tag ++ p)), ?_, ?_⟩
  · simp [encode, Nat.not_lt.mpr hp]
  · simp only [be16, be32, hv, List.cons_append, List.nil_append]
    have hlen : p.length / 256 % 256 * 256 + p.length % 256 = p.length := by omega
    simp only [decode, hlen]
    rw [be32_reassemble _ hs]
    simp only [← hl, hv]
    cases h
    simp_all

/-- Witness for C2 at a concrete header and payload. -/
theorem codec_round_trip_witness :
    ∃ bytes, encode ⟨1, 2, 7⟩ [10, 20] = .ok bytes ∧
      decode bytes = .ok (⟨1, 2, 7⟩, [10, 20]) :=
  codec_round_trip ⟨1, 2, 7⟩ [10, 20] rfl rfl (by decide) (by decide)

/-- C3: every byte sequence of fewer than 7 bytes is rejected by `decode`
with `DecodeError.Truncated`. -/
theorem decode_short_truncated (b : List Nat) (hb : b.length < 7) :
    decode b = .error .Truncated := by
  match b with
  | [] => rfl
  | [_] => rfl
  | [_, _] => rfl
  | [_, _, _] => rfl
  | [_, _, _, _] => rfl
  | [_, _, _, _, _] => rfl
  | [_, _, _, _, _, _] => rfl
  | _ :: _ :: _ :: _ :: _ :: _ :: _ :: _ => simp at hb; omega

/-- Witness for C3 at a concrete 3-byte input. -/
theorem decode_short_truncated_witness :
    decode [1, 0, 0] = .error .Truncated :=
  decode_short_truncated [1, 0, 0] (by decide)

/-- C4: `encode` fails (necessarily with `PayloadTooLarge`, the only
`EncodeError`) exactly when the payload length exceeds 65535; for payloads of
length 0–65535 it succeeds. -/
theorem encode_fails_iff (h : Header) (p : List Nat) :
    (∃ e, encode h p = .error e) ↔ 65535 < p.length := by
  constructor
  · rintro ⟨e, he⟩
    by_contra hlt
    simp [encode, hlt] at he
  · intro hgt
    exact ⟨.PayloadTooLarge, by simp [encode, hgt]⟩


theorem findSession_updateSession_self (tbl : SessionTable) (k : SessionKey)
    (f : Session → Session) :
    findSession (updateSession tbl k f) k = (findSession tbl k).map f := by
  induction tbl with
  | nil => rfl
  | cons e rest ih =>
    obtain ⟨k0, s⟩ := e
    by_cases h : k0 = k <;> simp [updateSession, findSession, h, ih]

theorem findSession_updateSession_ne (tbl : SessionTable) (k b : SessionKey)
    (f : Session → Session) (h : k ≠ b) :
    findSession (updateSession tbl k f) b = findSession tbl b := by
  induction tbl with
  | nil => rfl
  | cons e rest ih =>
    obtain ⟨k0, s⟩ := e
    by_cases h0 : k0 = k
    · subst h0
      simp [updateSession, findSession, h]
    · simp [updateSession, findSession, h0, ih]

theorem filter_length_split {α : Type} (l : List α) (p : α → Bool) :
    (l.filter p).length + (l.filter fun a => ! p a).length = l.length := by
  induction l with
  | nil => rfl
  | cons a l ih =>
    by_cases h : p a <;> simp [List.filter_cons, h] <;> omega

/-- C5: `lookup_or_create` returns the existing session (and the unchanged
table) when the key is present, for either value of `allow_create`; when the
key is absent and `allow_create` is true it inserts and returns a fresh
session whose state is OPEN; when the key is absent and `allow_create` is
false it fails with `NotFound` and, returning no table, leaves the caller's
table unchanged. -/
theorem lookup_or_create_spec (tbl : SessionTable) (k : SessionKey) (now : Nat) :
    (∀ s, findSession tbl k = some s →
      ∀ ac, lookup_or_create tbl k ac now = .ok (s, tbl)) ∧
    (findSession tbl k = none →
      lookup_or_create tbl k true now
          = .ok (newSession now, (k, newSession now) :: tbl) ∧
        (newSession now).state = .OPEN ∧
        findSession ((k, newSession now) :: tbl) k = some (newSession now)) ∧
    (findSession tbl k = none →
      lookup_or_create tbl k false now = .error .NotFound) := by
  refine ⟨?_, ?_, ?_⟩
  · intro s hs ac
    simp [lookup_or_create, hs]
  · intro hn
    refine ⟨by simp [lookup_or_create, hn], rfl, by simp [findSession]⟩
  · intro hn
    simp [lookup_or_create, hn]

/-- Witness for C5 in the create case, at the empty table. -/
theorem lookup_or_create_spec_witness :
    lookup_or_create [] (0, 1) true 5
        = .ok (newSession 5, [((0, 1), newSession 5)]) ∧
      (newSession 5).state = .OPEN :=
  ⟨((lookup_or_create_spec [] (0, 1) 5).2.1 rfl).1,
   ((lookup_or_create_spec [] (0, 1) 5).2.1 rfl).2.1⟩

/-- C6: `sweep(now, idle_timeout)` keeps exactly the entries that are not
idle longer than the timeout, returns the number of removed sessions (the
removed plus the survivors account for the whole table), and afterwards no
session idle longer than the timeout remains. -/
theorem sweep_spec (tbl : SessionTable) (now d : Nat) :
    (∀ e, e ∈ (sweep tbl now d).2 ↔ e ∈ tbl ∧ isIdle now d e.2 = false) ∧
    (sweep tbl now d).1 = (tbl.filter fun e => isIdle now d e.2).length ∧
    (sweep tbl now d).1 + (sweep tbl now d).2.length = tbl.length ∧
    (∀ e, e ∈ (sweep tbl now d).2 → ¬ (e.2.lastActivity + d < now)) := by
  refine ⟨?_, rfl, ?_, ?_⟩
  · intro e
    simp [sweep, List.mem_filter]
  · exact filter_length_split tbl _
  · intro e he
    simp [sweep, List.mem_filter, isIdle] at he
    omega

theorem closeState_closes (s : Session) :
    closeState s = .CLOSING ∨ closeState s = .CLOSED := by
  obtain ⟨q, st, la, ov⟩ := s
  cases st <;> by_cases hq : q.isEmpty <;> simp [closeState, hq]

/-- C7: after `close()` has been called on an existing session, a subsequent
`send` to that session's key fails with `ClosedSession` — `close` leaves the
session in state CLOSING or CLOSED, and the Send Path rejects both. -/
theorem send_after_close (tbl : SessionTable) (k : SessionKey) (s : Session)
    (payload : List Nat) (seq now : Nat)
    (hfind : findSession tbl k = some s) :
    send (close tbl k) k payload seq now = .error .ClosedSession := by
  have h1 : findSession (close tbl k) k
      = some { s with state := closeState s } := by
    simp [close, findSession_updateSession_self, hfind]
  simp only [send, lookup_or_create, h1]
  rcases closeState_closes s with h2 | h2 <;> simp [h2]

/-- Witness for C7: closing a fresh OPEN session makes the next send fail. -/
theorem send_after_close_witness :
    send (close [((0, 1), newSession 0)] (0, 1)) (0, 1) [7] 0 0
      = .error .ClosedSession :=
  send_after_close [((0, 1), newSession 0)] (0, 1) (newSession 0) [7] 0 0
    (by simp [findSession])

theorem deliverMany_no_overflow (capacity : Nat) (ps : List (List Nat))
    (s : Session) (h : s.queue.length + ps.length ≤ capacity) :
    deliverMany capacity s ps = { s with queue := s.queue ++ ps } := by
  induction ps generalizing s with
  | nil => simp [deliverMany]
  | cons p ps ih =>
    have hc : (s.queue ++ [p]).length ≤ capacity := by
      simp at h ⊢
      omega
    have hstep : enqueuePayload capacity s p = { s with queue := s.queue ++ [p] } := by
      simp only [enqueuePayload]
      rw [if_pos hc]
    have htail : ({ s with queue := s.queue ++ [p] } : Session).queue.length
        + ps.length ≤ capacity := by
      simp at h ⊢
      omega
    calc deliverMany capacity s (p :: ps)
        = deliverMany capacity ({ s with queue := s.queue ++ [p] }) ps := by
          simp [deliverMany, hstep]
      _ = { s with queue := (s.queue ++ [p]) ++ ps } := ih _ htail
      _ = { s with queue := s.queue ++ (p :: ps) } := by
          simp

/-- C8: delivering `inbound_queue_capacity + 1` payloads to a fresh session
with no intervening drain retains exactly `inbound_queue_capacity` entries,
with the oldest payload dropped (the queue is the delivered sequence minus
its first element) and the overflow counter equal to 1. -/
theorem overflow_policy (capacity now : Nat) (ps : List (List Nat))
    (hlen : ps.length = capacity + 1) :
    (deliverMany capacity (newSession now) ps).queue = ps.drop 1 ∧
    (deliverMany capacity (newSession now) ps).queue.length = capacity ∧
    (deliverMany capacity (newSession now) ps).overflow = 1 := by
  rcases List.eq_nil_or_concat ps with h0 | ⟨ps0, q, h0⟩
  · subst h0
    simp at hlen
  · subst h0
    simp only [List.concat_eq_append] at hlen ⊢
    have hlen0 : ps0.length = capacity := by
      simp at hlen
      omega
    have hfull : deliverMany capacity (newSession now) ps0
        = { newSession now with queue := ps0 } := by
      have := deliverMany_no_overflow capacity ps0 (newSession now)
        (by simp [newSession, hlen0])
      simpa [newSession] using this
    have hsplit : deliverMany capacity (newSession now) (ps0 ++ [q])
        = enqueuePayload capacity { newSession now with queue := ps0 } q := by
      simp [deliverMany, List.foldl_append]
      rw [show List.foldl (enqueuePayload capacity) (newSession now) ps0
            = { newSession now with queue := ps0 } from hfull]
    have hover : ¬ (ps0 ++ [q]).length ≤ capacity := by
      simp [hlen0]
    rw [hsplit]
    simp only [enqueuePayload]
    rw [if_neg (by simpa [newSession] using hover)]
    refine ⟨by simp [newSession], ?_, by simp [newSession]⟩
    simp [newSession, hlen0]

/-- Witness for C8: capacity 2, three payloads, the first one is dropped. -/
theorem overflow_policy_witness :
    (deliverMany 2 (newSession 0) [[1], [2], [3]]).queue = [[2], [3]] ∧
    (deliverMany 2 (newSession 0) [[1], [2], [3]]).overflow = 1 := by
  have h := overflow_policy 2 0 [[1], [2], [3]] (by decide)
  exact ⟨h.1, h.2.2⟩

theorem lookup_or_create_table_cases (tbl : SessionTable) (k : SessionKey)
    (ac : Bool) (now : Nat) (s : Session) (tbl1 : SessionTable)
    (h : lookup_or_create tbl k ac now = .ok (s, tbl1)) :
    tbl1 = tbl ∨ tbl1 = (k, s) :: tbl := by
  unfold lookup_or_create at h
  cases hf : findSession tbl k with
  | some s0 =>
    rw [hf] at h
    simp at h
    exact Or.inl h.2.symm
  | none =>
    rw [hf] at h
    cases ac with
    | false => simp at h
    | true =>
      simp at h
      right
      rw [h.2.symm, h.1]

theorem findSession_ok_table_ne (tbl : SessionTable) (k b : SessionKey)
    (ac : Bool) (now : Nat) (s : Session) (tbl1 : SessionTable)
    (h : lookup_or_create tbl k ac now = .ok (s, tbl1)) (hne : k ≠ b) :
    findSession tbl1 b = findSession tbl b := by
  rcases lookup_or_create_table_cases tbl k ac now s tbl1 h with h1 | h1 <;>
    subst h1
  · rfl
  · simp [findSession, hne]

/-- C9: session isolation — an inbound delivery for sender key
(local, sender) never changes the table entry of any other key `b`, and a
successful `send` on key `a` never changes the table entry of any other key
`b`; in particular no payload delivered or sent on one session ever appears
in another session's inbound queue. -/
theorem session_isolation (e : Engine) (raw : List Nat) (sender : Endpoint)
    (now : Nat) (tbl : SessionTable) (a b : SessionKey)
    (payload : List Nat) (seq : Nat)
    (hb : b ≠ (e.local_ep, sender)) (hab : a ≠ b) :
    findSession (on_datagram_received e raw sender now).1.table b
        = findSession e.table b ∧
    (∀ bytes tbl1, send tbl a payload seq now = .ok (bytes, tbl1) →
      findSession tbl1 b = findSession tbl b) := by
  constructor
  · unfold on_datagram_received
    split
    · rfl
    · split
      · rfl
      · rename_i hd p s tbl2 hlc
        have hpre : findSession tbl2 b = findSession e.table b :=
          findSession_ok_table_ne e.table (e.local_ep, sender) b
            e.cfg.accept_unsolicited now s tbl2 hlc (fun hk => hb hk.symm)
        split
        · refine Eq.trans ?_ hpre
          exact findSession_updateSession_ne tbl2 (e.local_ep, sender) b _
            (fun hk => hb hk.symm)
        · rfl
  · intro bytes tbl1 hsend
    unfold send at hsend
    split at hsend
    · simp at hsend
    · rename_i s tbl2 hlc
      split at hsend
      · split at hsend
        · simp at hsend
        · simp at hsend
          rw [← hsend.2]
          exact findSession_ok_table_ne tbl a b true now s tbl2 hlc hab
      · simp at hsend

/-- Witness for C9 at concrete distinct keys. -/
theorem session_isolation_witness :
    findSession (on_datagram_received ⟨⟨true, 4, 10⟩, 0, [], 0⟩ [] 1 0).1.table (5, 5)
        = findSession (Engine.table ⟨⟨true, 4, 10⟩, 0, [], 0⟩) (5, 5) ∧
    (∀ bytes tbl1, send [] (0, 1) [7] 0 0 = .ok (bytes, tbl1) →
      findSession tbl1 (5, 5) = findSession [] (5, 5)) :=
  session_isolation ⟨⟨true, 4, 10⟩, 0, [], 0⟩ [] 1 0 [] (0, 1) (5, 5) [7] 0
    (by decide) (by decide)

/-- C1 counterexample: `netssd_rcv` is not free of observable effects — at a
concrete input it changes the kernel-log state, appending the `printk` line,
so not every protocol-specific operation performs no state change. -/
theorem netssd_rcv_changes_log :
    (netssd_rcv ⟨0⟩ []).2.2 ≠ ([] : List String) := by
  simp [netssd_rcv]

/-- C1 (amended): every protocol-specific operation of the module returns 0
(where int-returning) and leaves the socket, message, buffer and
out-parameter state unchanged; `netssd_rcv` alone has one further effect,
appending its fixed diagnostic line to the kernel log. -/
theorem netssd_stubs_spec (sk : Sock) (msg : MsgHdr) (skb : SkBuff)
    (len : Nat) (timeout noblock flags : Int) (addr_len : Int)
    (info : Nat) (log : List String) :
    netssd_close sk timeout = sk ∧
    netssd_sendmsg sk msg len = (0, sk, msg) ∧
    netssd_recvmsg sk msg len noblock flags addr_len = (0, sk, msg, addr_len) ∧
    netssd_hash sk = (0, sk) ∧
    netssd_rcv skb log = (0, skb, log ++ ["rcv is called\n"]) ∧
    netssd_err skb info = (0, skb) :=
  ⟨rfl, rfl, rfl, rfl, rfl, rfl⟩

/-- C10: `netssd_init_module` returns 0 exactly when both `proto_register`
and `inet_add_protocol` report success; on success it registers the protosw
with type `SOCK_RAW` and protocol number 14 and never calls
`cleanup_module`; when either registration call reports a nonzero code, the
module invokes `cleanup_module` as its final action and returns that same
code. -/
theorem netssd_init_module_spec (env : HostEnv) :
    ((netssd_init_module env).1 = 0 ↔
      env.proto_register_rc = 0 ∧ env.inet_add_protocol_rc = 0) ∧
    (env.proto_register_rc = 0 → env.inet_add_protocol_rc = 0 →
      KernelCall.inetRegisterProtosw SOCK_RAW IPPROTO_NETSSDPROTO
          ∈ (netssd_init_module env).2 ∧
        KernelCall.cleanupModule ∉ (netssd_init_module env).2) ∧
    (env.proto_register_rc ≠ 0 →
      (netssd_init_module env).1 = env.proto_register_rc ∧
      (netssd_init_module env).2.getLast? = some .cleanupModule) ∧
    (env.proto_register_rc = 0 → env.inet_add_protocol_rc ≠ 0 →
      (netssd_init_module env).1 = env.inet_add_protocol_rc ∧
      (netssd_init_module env).2.getLast? = some .cleanupModule) := by
  obtain ⟨rc1, rc2⟩ := env
  by_cases h1 : rc1 = 0 <;> by_cases h2 : rc2 = 0 <;>
    simp [netssd_init_module, h1, h2]

/-- Witness for C10: with `proto_register` succeeding and
`inet_add_protocol` failing with 5, the module returns 5 after a final
`cleanup_module` call. -/
theorem netssd_init_module_spec_witness :
    (netssd_init_module ⟨0, 5⟩).1 = 5 ∧
    (netssd_init_module ⟨0, 5⟩).2.getLast? = some .cleanupModule :=
  (netssd_init_module_spec ⟨0, 5⟩).2.2.2 rfl (by decide)

end Netssd
